import Mathlib

/-!
Formal model of the document-ingestion pipeline in src/app.py.

The source is a Flask application that, on a POST to /process, downloads a
PDF from a storage bucket, extracts its text page by page, asks a generative
model for a summary, computes an embedding vector, and stores the vector with
metadata in a ChromaDB collection via the collection.add call.

Modelling conventions:
- Every call to an external collaborator is modelled by an oracle in an
  environment structure; an oracle result is an Outcome: a returned value or
  a raised exception carrying its message string. Python try/except blocks
  become matches on these outcomes, placed exactly where the source places
  its handlers.
- Python str values are Lean String values; Python slicing text[:500] is
  code-point slicing, modelled by String.take.
- The floating-point entries of an embedding vector are never computed with,
  only passed through and compared; they are modelled as rationals.
- The ChromaDB collection is a list of records; the external
  collection.add call is modelled by chromaAdd below.
-/

namespace ProcessReports

/-- Outcome of one call to an external collaborator: a returned value, or a
raised exception carrying its message string. -/
inductive Outcome (α : Type) where
  | ok : α → Outcome α
  | exn : String → Outcome α
deriving DecidableEq, Repr

/-- Constant BUCKET_NAME from src/app.py line 20. -/
def BUCKET_NAME : String := "ai-app-gcs"

/-- Constant FILE_NAME from src/app.py line 21: the document id used for
every run. -/
def FILE_NAME : String := "sample_cast_report.pdf"

/-- Constant MODEL_NAME from src/app.py line 22. -/
def MODEL_NAME : String := "gemini-pro"

/-- Constant EMBEDDING_MODEL_NAME from src/app.py line 23. -/
def EMBEDDING_MODEL_NAME : String := "models/embedding-001"

/-- The view a single run has of the external collaborators of src/app.py.
Each field is the behaviour of one outside service during that run. -/
structure Env where
  /-- blob.download_as_bytes (line 133): the raw PDF bytes, or a raised
  storage exception. -/
  download : Outcome (List Nat)
  /-- fitz.open on the downloaded bytes (line 67): the page texts in
  document order, or a raised parse exception. -/
  parsePdf : List Nat → Outcome (List String)
  /-- model.generate_content on a prompt (line 74): the response text, or a
  raised service exception. -/
  complete : String → Outcome String
  /-- genai.embed_content (lines 83-87), taking the model name, the content
  text and the task type: the embedding vector, or a raised exception. -/
  embedSvc : String → String → String → Outcome (List Rat)
  /-- whether the collection.add network call (line 109) raises on this
  run. -/
  storeCall : Outcome Unit

/-- Metadata stored with a vector (src/app.py line 112). -/
structure Metadata where
  file_name : String
  content : String
deriving DecidableEq, Repr

/-- One persisted record of the vector collection. -/
structure CollectionRecord where
  id : String
  embedding : List Rat
  metadata : Metadata
deriving DecidableEq, Repr

/-- The state of the ChromaDB collection. -/
abbrev Collection := List CollectionRecord

/-- Models the external chromadb collection.add call used at src/app.py line
109: a record whose id is not yet in the collection is appended; a record
whose id is already present is NOT replaced (chromadb add is insert-only: a
duplicate id is reported and the existing record kept, unlike upsert). -/
def chromaAdd (col : Collection) (r : CollectionRecord) : Collection :=
  if col.any (fun x => x.id == r.id) then col else col ++ [r]

/-- extract_text_from_pdf, src/app.py lines 65-68: fitz.open on the bytes
(whose parse outcome is the argument; a parse failure raises out of this
function), then the join of the page texts with a newline separator. -/
def extract_text_from_pdf (parsed : Outcome (List String)) : Outcome String :=
  match parsed with
  | .exn e => .exn e
  | .ok pages => .ok (String.intercalate "\n" pages)

/-- generate_gemini_response, src/app.py lines 70-78: build the prompt from
a fixed template and the text, call the generative model, and return its
text; any exception is caught, logged, and turned into None. -/
def generate_gemini_response (env : Env) (text : String) : Option String :=
  match env.complete ("Summarize this text:\n" ++ text) with
  | .ok r => some r
  | .exn _ => none

/-- generate_embeddings, src/app.py lines 80-92: call the embedding service
with the fixed model name and task type; any exception is caught, logged,
and turned into None. -/
def generate_embeddings (env : Env) (text : String) : Option (List Rat) :=
  match env.embedSvc EMBEDDING_MODEL_NAME text "RETRIEVAL_DOCUMENT" with
  | .ok v => some v
  | .exn _ => none

/-- store_embeddings_in_chroma, src/app.py lines 94-120, as a state
transformer on the collection. If the embedding is None the function logs
and returns with no write; otherwise it calls collection.add inside a
try/except whose handler only logs, so a raised add call leaves the
collection unchanged and the function still returns normally. -/
def store_embeddings_in_chroma (env : Env) (col : Collection)
    (file_name text : String) : Collection :=
  match generate_embeddings env text with
  | none => col
  | some embedding_vector =>
    match env.storeCall with
    | .exn _ => col
    | .ok _ =>
      chromaAdd col ⟨file_name, embedding_vector, ⟨file_name, text.take 500⟩⟩

/-- The JSON response of the /process handler: the success body of line 141
with HTTP status 200, or the error body of line 144 with HTTP status 500. -/
inductive HandlerResult where
  | success (file : String) (gemini_summary : Option String)
  | failure (error : String)
deriving DecidableEq, Repr

/-- HTTP status of a handler response: jsonify defaults to 200 on the
success path; the error path returns 500 explicitly. -/
def HandlerResult.httpStatus : HandlerResult → Nat
  | .success _ _ => 200
  | .failure _ => 500

/-- process_file, src/app.py lines 126-144: download the blob, extract the
text, compute the summary, store the embeddings, and return the success
body; any exception raised inside the try block is caught and turned into
the error body with status 500. Returns the response together with the
collection state after the run. -/
def process_file (env : Env) (col : Collection) : HandlerResult × Collection :=
  match env.download with
  | .exn e => (.failure e, col)
  | .ok pdf_bytes =>
    match extract_text_from_pdf (env.parsePdf pdf_bytes) with
    | .exn e => (.failure e, col)
    | .ok extracted_text =>
      let gemini_response := generate_gemini_response env extracted_text
      let col2 := store_embeddings_in_chroma env col FILE_NAME extracted_text
      (.success FILE_NAME gemini_response, col2)

/-- The view one process start-up has of the module-level external calls of
src/app.py lines 32-63. -/
structure StartupEnv where
  /-- the metadata-server identity token request (lines 33-38). -/
  tokenFetch : Outcome String
  /-- the ChromaDB heartbeat request (line 46): its HTTP status code, or a
  raised exception. -/
  heartbeat : Outcome Nat
  /-- chromadb.HttpClient construction (line 53). -/
  clientInit : Outcome Unit
  /-- get_or_create_collection (line 60). -/
  getCollection : Outcome Unit

/-- The module-level initialization steps of src/app.py, in source order. -/
inductive InitStep where
  | fetchToken
  | heartbeatProbe
  | initClient
  | getOrCreateCollection
deriving DecidableEq, Repr

/-- State of the process after module-level initialization. -/
structure StartupState where
  /-- IAM_TOKEN: None when the token request raised (line 41). -/
  iam_token : Option String
  /-- whether the heartbeat request returned without raising. -/
  heartbeat_ok : Bool
  /-- whether chromadb.HttpClient construction succeeded. -/
  client_ok : Bool
  /-- whether get_or_create_collection succeeded. -/
  collection_ok : Bool
  /-- the initialization steps performed, in order. -/
  trace : List InitStep
  /-- whether the process goes on to serve requests. -/
  serves : Bool
deriving DecidableEq, Repr

/-- Module-level initialization of src/app.py lines 32-63: fetch the IAM
token, probe the ChromaDB heartbeat, construct the HttpClient, and
get-or-create the collection. Each of the four steps sits in its own
try/except whose handler only logs, so initialization always runs every
step and the Flask app always goes on to serve requests, whatever failed. -/
def module_init (senv : StartupEnv) : StartupState :=
  let iam_token := match senv.tokenFetch with | .ok t => some t | .exn _ => none
  let heartbeat_ok := match senv.heartbeat with | .ok _ => true | .exn _ => false
  let client_ok := match senv.clientInit with | .ok _ => true | .exn _ => false
  let collection_ok := match senv.getCollection with | .ok _ => true | .exn _ => false
  { iam_token := iam_token
    heartbeat_ok := heartbeat_ok
    client_ok := client_ok
    collection_ok := collection_ok
    trace := [.fetchToken, .heartbeatProbe, .initClient, .getOrCreateCollection]
    serves := true }

/-- A request served after start-up: src/app.py runs module initialization
and then unconditionally starts the Flask app (line 147), which dispatches
/process to process_file; nothing gates serving on the start-up outcomes. -/
def serve (senv : StartupEnv) (env : Env) (col : Collection) :
    Option (HandlerResult × Collection) :=
  if (module_init senv).serves then some (process_file env col) else none

/-- Specification-side description of extraction (written from the spec
wording, for comparison with the code): page texts in document order, one
newline between consecutive pages, no separator before the first page or
after the last; the empty page list gives the empty string. -/
def joinSpec : List String → String
  | [] => ""
  | [p] => p
  | p :: q :: ps => p ++ "\n" ++ joinSpec (q :: ps)

/-- Helper for relating String.intercalate to joinSpec: the separator-led
tail of a join. -/
def joinTail (sep : String) : List String → String
  | [] => ""
  | a :: as => sep ++ a ++ joinTail sep as

/-- Concrete run environment in which the embedding service raises and every
other collaborator succeeds. -/
def envEmbedDown : Env :=
  { download := .ok [37, 80, 68, 70]
    parsePdf := fun _ => .ok ["T"]
    complete := fun _ => .ok "S"
    embedSvc := fun _ _ _ => .exn "embedding service unavailable"
    storeCall := .ok () }

/-- Concrete run environment in which the collection.add call raises and
every other collaborator succeeds. -/
def envStoreDown : Env :=
  { download := .ok [37, 80, 68, 70]
    parsePdf := fun _ => .ok ["T"]
    complete := fun _ => .ok "S"
    embedSvc := fun _ _ _ => .ok [1]
    storeCall := .exn "chromadb write failed" }

/-- Concrete run environment in which the completion service raises and
every other collaborator succeeds. -/
def envSummFail : Env :=
  { download := .ok [37, 80, 68, 70]
    parsePdf := fun _ => .ok ["T"]
    complete := fun _ => .exn "gemini quota exceeded"
    embedSvc := fun _ _ _ => .ok [1]
    storeCall := .ok () }

/-- Concrete run environment for the first write of the duplicate-id
scenario: page text A, embedding vector with the single entry 1. -/
def envRun1 : Env :=
  { download := .ok [37, 80, 68, 70]
    parsePdf := fun _ => .ok ["A"]
    complete := fun _ => .ok "S"
    embedSvc := fun _ _ _ => .ok [1]
    storeCall := .ok () }

/-- Concrete run environment for the second write of the duplicate-id
scenario: page text B, embedding vector with the single entry 2. -/
def envRun2 : Env :=
  { download := .ok [37, 80, 68, 70]
    parsePdf := fun _ => .ok ["B"]
    complete := fun _ => .ok "S"
    embedSvc := fun _ _ _ => .ok [2]
    storeCall := .ok () }

/-- Concrete run environment with every collaborator healthy. -/
def envServeOk : Env :=
  { download := .ok [37, 80, 68, 70]
    parsePdf := fun _ => .ok ["T"]
    complete := fun _ => .ok "S"
    embedSvc := fun _ _ _ => .ok [1]
    storeCall := .ok () }

/-- Concrete run environment whose completion service returns a different
summary than envSummB but agrees with it on every other collaborator. -/
def envSummA : Env :=
  { download := .ok [37, 80, 68, 70]
    parsePdf := fun _ => .ok ["T"]
    complete := fun _ => .ok "summary one"
    embedSvc := fun _ _ _ => .ok [1]
    storeCall := .ok () }

/-- Concrete run environment whose completion service raises but which
agrees with envSummA on every other collaborator. -/
def envSummB : Env :=
  { download := .ok [37, 80, 68, 70]
    parsePdf := fun _ => .ok ["T"]
    complete := fun _ => .exn "gemini down"
    embedSvc := fun _ _ _ => .ok [1]
    storeCall := .ok () }

/-- Concrete start-up environment in which the heartbeat probe raises and
every other start-up step succeeds. -/
def senvHeartbeatDown : StartupEnv :=
  { tokenFetch := .ok "tok"
    heartbeat := .exn "connection refused"
    clientInit := .ok ()
    getCollection := .ok () }

end ProcessReports

namespace ProcessReports

theorem append_empty_string (s : String) : s ++ "" = s := by
  apply String.ext
  simp [String.data_append]

theorem intercalate_go_eq (sep : String) :
    ∀ (as : List String) (acc : String),
      String.intercalate.go acc sep as = acc ++ joinTail sep as
  | [], acc => by
    simp [String.intercalate.go, joinTail, append_empty_string]
  | a :: as, acc => by
    rw [String.intercalate.go, intercalate_go_eq sep as]
    simp [joinTail, String.append_assoc]

theorem cons_joinTail_eq_joinSpec :
    ∀ (a : String) (l : List String), a ++ joinTail "\n" l = joinSpec (a :: l)
  | a, [] => by simp [joinTail, joinSpec, append_empty_string]
  | a, b :: l => by
    rw [joinTail, joinSpec, ← cons_joinTail_eq_joinSpec b l]
    simp [String.append_assoc]

theorem intercalate_eq_joinSpec (l : List String) :
    String.intercalate "\n" l = joinSpec l := by
  match l with
  | [] => rfl
  | a :: as => rw [String.intercalate, intercalate_go_eq, cons_joinTail_eq_joinSpec]

/-- C5: for every parseable document, extraction returns the page texts in
document order joined with a single newline between consecutive pages, with
no separator before the first page or after the last; in particular pages
yielding A, B, C extract to exactly A, newline, B, newline, C, and a
zero-page document extracts to the empty string rather than an error. -/
theorem extraction_newline_join :
    (∀ pages : List String,
      extract_text_from_pdf (Outcome.ok pages) = Outcome.ok (joinSpec pages)) ∧
    extract_text_from_pdf (Outcome.ok ["A", "B", "C"]) = Outcome.ok "A\nB\nC" ∧
    extract_text_from_pdf (Outcome.ok []) = Outcome.ok "" := by
  refine ⟨fun pages => ?_, by decide, rfl⟩
  simp [extract_text_from_pdf, intercalate_eq_joinSpec]

/-- C7: when the fetch step or the extract step fails, the run aborts
immediately: no write to the collection happens, and the handler returns the
error record carrying the failure reason with HTTP status 500. -/
theorem fetch_or_extract_failure_aborts (env : Env) (col : Collection) (e : String)
    (h : env.download = .exn e ∨
         ∃ bs, env.download = .ok bs ∧ env.parsePdf bs = .exn e) :
    process_file env col = (.failure e, col) ∧
    (process_file env col).1.httpStatus = 500 := by
  rcases h with h | ⟨bs, hdl, hp⟩
  · simp [process_file, h, HandlerResult.httpStatus]
  · simp [process_file, hdl, extract_text_from_pdf, hp, HandlerResult.httpStatus]

/-- Witness for C7 at a concrete input: a failed download aborts the run. -/
theorem fetch_or_extract_failure_aborts_witness :
    process_file
        { download := .exn "object not found"
          parsePdf := fun _ => .ok []
          complete := fun _ => .ok ""
          embedSvc := fun _ _ _ => .ok []
          storeCall := .ok () } []
      = (.failure "object not found", []) ∧
    (process_file
        { download := .exn "object not found"
          parsePdf := fun _ => .ok []
          complete := fun _ => .ok ""
          embedSvc := fun _ _ _ => .ok []
          storeCall := .ok () } []).1.httpStatus = 500 :=
  fetch_or_extract_failure_aborts _ [] "object not found" (Or.inl rfl)

/-- C9: the /process handler is total over every behaviour of the external
collaborators: each request gets exactly one response, either the success
body with status 200 or the error body with status 500; no exception
escapes to the request layer. -/
theorem handler_total (env : Env) (col : Collection) :
    (∃ s, (process_file env col).1 = .success FILE_NAME s ∧
          (process_file env col).1.httpStatus = 200) ∨
    (∃ e, (process_file env col).1 = .failure e ∧
          (process_file env col).1.httpStatus = 500) := by
  cases hdl : env.download with
  | exn e =>
    right
    exact ⟨e, by simp [process_file, hdl],
      by simp [process_file, hdl, HandlerResult.httpStatus]⟩
  | ok bs =>
    cases hp : env.parsePdf bs with
    | exn e =>
      right
      exact ⟨e, by simp [process_file, hdl, extract_text_from_pdf, hp],
        by simp [process_file, hdl, extract_text_from_pdf, hp, HandlerResult.httpStatus]⟩
    | ok pages =>
      left
      exact ⟨generate_gemini_response env (String.intercalate "\n" pages),
        by simp [process_file, hdl, extract_text_from_pdf, hp],
        by simp [process_file, hdl, extract_text_from_pdf, hp, HandlerResult.httpStatus]⟩

/-- C1 counterexample: with the Embedder failing and every other
collaborator healthy, nothing is written — but the handler returns the
success record with HTTP status 200 and a summary, not an error record with
non-success status as the claim states. -/
theorem embed_failure_returns_success_cx :
    (process_file envEmbedDown []).2 = [] ∧
    (process_file envEmbedDown []).1 = .success FILE_NAME (some "S") ∧
    (process_file envEmbedDown []).1.httpStatus = 200 ∧
    ¬ ∃ e, (process_file envEmbedDown []).1 = .failure e := by
  refine ⟨rfl, rfl, rfl, ?_⟩
  rintro ⟨e, h⟩
  rw [show (process_file envEmbedDown []).1 = .success FILE_NAME (some "S") from rfl] at h
  exact HandlerResult.noConfusion h

/-- C1 (amended): if the Embedder fails, no CollectionRecord is written for
that run — but the pipeline does not abort: the handler still returns the
success record with HTTP status 200, carrying whatever the summarizer
produced; the embedding failure is only logged. -/
theorem embed_failure_no_write_success_response
    (env : Env) (col : Collection) (bs : List Nat) (pages : List String) (msg : String)
    (hdl : env.download = .ok bs)
    (hp : env.parsePdf bs = .ok pages)
    (he : env.embedSvc EMBEDDING_MODEL_NAME (String.intercalate "\n" pages)
            "RETRIEVAL_DOCUMENT" = .exn msg) :
    (process_file env col).2 = col ∧
    (process_file env col).1
      = .success FILE_NAME (generate_gemini_response env (String.intercalate "\n" pages)) ∧
    (process_file env col).1.httpStatus = 200 := by
  simp [process_file, hdl, extract_text_from_pdf, hp, store_embeddings_in_chroma,
    generate_embeddings, he, HandlerResult.httpStatus]

/-- Witness for the amended C1 at a concrete input. -/
theorem embed_failure_no_write_success_response_witness :
    (process_file envEmbedDown []).2 = [] ∧
    (process_file envEmbedDown []).1
      = .success FILE_NAME
          (generate_gemini_response envEmbedDown (String.intercalate "\n" ["T"])) ∧
    (process_file envEmbedDown []).1.httpStatus = 200 :=
  embed_failure_no_write_success_response envEmbedDown [] [37, 80, 68, 70] ["T"]
    "embedding service unavailable" rfl rfl rfl

/-- C2 counterexample: with the collection.add call raising and every other
collaborator healthy, the run still produces the success result with HTTP
status 200 — the write failure is swallowed, contradicting the claim that
the run does not produce the success result. -/
theorem store_failure_returns_success_cx :
    (process_file envStoreDown []).2 = [] ∧
    (process_file envStoreDown []).1 = .success FILE_NAME (some "S") ∧
    (process_file envStoreDown []).1.httpStatus = 200 := ⟨rfl, rfl, rfl⟩

/-- C2 (amended): a failure of the write to the vector collection produces
no partial write, but it does not abort the pipeline and is not surfaced at
the trigger boundary: the exception is caught inside
store_embeddings_in_chroma and only logged, and the run still returns the
success record with HTTP status 200. -/
theorem store_failure_swallowed
    (env : Env) (col : Collection) (bs : List Nat) (pages : List String)
    (msg : String) (v : List Rat)
    (hdl : env.download = .ok bs)
    (hp : env.parsePdf bs = .ok pages)
    (he : env.embedSvc EMBEDDING_MODEL_NAME (String.intercalate "\n" pages)
            "RETRIEVAL_DOCUMENT" = .ok v)
    (hs : env.storeCall = .exn msg) :
    (process_file env col).2 = col ∧
    (process_file env col).1
      = .success FILE_NAME (generate_gemini_response env (String.intercalate "\n" pages)) ∧
    (process_file env col).1.httpStatus = 200 := by
  simp [process_file, hdl, extract_text_from_pdf, hp, store_embeddings_in_chroma,
    generate_embeddings, he, hs, HandlerResult.httpStatus]

/-- Witness for the amended C2 at a concrete input. -/
theorem store_failure_swallowed_witness :
    (process_file envStoreDown []).2 = [] ∧
    (process_file envStoreDown []).1
      = .success FILE_NAME
          (generate_gemini_response envStoreDown (String.intercalate "\n" ["T"])) ∧
    (process_file envStoreDown []).1.httpStatus = 200 :=
  store_failure_swallowed envStoreDown [] [37, 80, 68, 70] ["T"]
    "chromadb write failed" [1] rfl rfl rfl rfl

/-- C3 counterexample: two successful writes with the same id d and changed
content leave one record, but its vector and metadata are those of the
FIRST write, not the most recent: the collection.add call of the code does
not replace an existing id, so write-by-id is not insert-or-replace. -/
theorem second_add_does_not_replace_cx :
    store_embeddings_in_chroma envRun2
        (store_embeddings_in_chroma envRun1 [] "d" "A") "d" "B"
      = [⟨"d", [1], ⟨"d", "A".take 500⟩⟩] ∧
    store_embeddings_in_chroma envRun2
        (store_embeddings_in_chroma envRun1 [] "d" "A") "d" "B"
      ≠ [⟨"d", [2], ⟨"d", "B".take 500⟩⟩] := by
  have h1 : store_embeddings_in_chroma envRun2
      (store_embeddings_in_chroma envRun1 [] "d" "A") "d" "B"
    = [⟨"d", [1], ⟨"d", "A".take 500⟩⟩] := rfl
  refine ⟨h1, ?_⟩
  rw [h1]
  intro h
  norm_num [CollectionRecord.mk.injEq, Metadata.mk.injEq] at h

/-- C3 (amended): writing twice with the same document id d (changed
content), the first write succeeding, leaves exactly one CollectionRecord
for d — but its vector and metadata equal the FIRST successful write, not
the most recent one: whatever the second run does, the existing record is
never replaced, because collection.add is insert-only rather than upsert. -/
theorem add_not_upsert
    (env1 env2 : Env) (d t1 t2 : String) (v1 : List Rat)
    (he1 : generate_embeddings env1 t1 = some v1)
    (hs1 : env1.storeCall = .ok ()) :
    store_embeddings_in_chroma env1 [] d t1 = [⟨d, v1, ⟨d, t1.take 500⟩⟩] ∧
    store_embeddings_in_chroma env2 (store_embeddings_in_chroma env1 [] d t1) d t2
      = store_embeddings_in_chroma env1 [] d t1 := by
  have h1 : store_embeddings_in_chroma env1 [] d t1 = [⟨d, v1, ⟨d, t1.take 500⟩⟩] := by
    simp [store_embeddings_in_chroma, he1, hs1, chromaAdd]
  refine ⟨h1, ?_⟩
  rw [h1]
  cases h2 : generate_embeddings env2 t2 with
  | none => simp [store_embeddings_in_chroma, h2]
  | some v2 =>
    cases hsc : env2.storeCall with
    | exn m => simp [store_embeddings_in_chroma, h2, hsc]
    | ok u => simp [store_embeddings_in_chroma, h2, hsc, chromaAdd]

/-- Witness for the amended C3 at a concrete input. -/
theorem add_not_upsert_witness :
    store_embeddings_in_chroma envRun1 [] "d" "A" = [⟨"d", [1], ⟨"d", "A".take 500⟩⟩] ∧
    store_embeddings_in_chroma envRun2
        (store_embeddings_in_chroma envRun1 [] "d" "A") "d" "B"
      = store_embeddings_in_chroma envRun1 [] "d" "A" :=
  add_not_upsert envRun1 envRun2 "d" "A" "B" [1] rfl rfl

/-- C4: when the Summarizer fails but fetch, extract, embed and store all
succeed, the run still completes: the CollectionRecord is written and the
handler returns the success record with HTTP status 200 whose gemini_summary
field is None, rendered as null. -/
theorem summarizer_failure_degrades
    (env : Env) (col : Collection) (bs : List Nat) (pages : List String)
    (msg : String) (v : List Rat)
    (hdl : env.download = .ok bs)
    (hp : env.parsePdf bs = .ok pages)
    (hc : env.complete ("Summarize this text:\n" ++ String.intercalate "\n" pages)
            = .exn msg)
    (he : env.embedSvc EMBEDDING_MODEL_NAME (String.intercalate "\n" pages)
            "RETRIEVAL_DOCUMENT" = .ok v)
    (hs : env.storeCall = .ok ())
    (hfresh : col.any (fun x => x.id == FILE_NAME) = false) :
    (process_file env col).1 = .success FILE_NAME none ∧
    (process_file env col).1.httpStatus = 200 ∧
    (process_file env col).2
      = col ++ [⟨FILE_NAME, v, ⟨FILE_NAME, (String.intercalate "\n" pages).take 500⟩⟩] := by
  simp [process_file, hdl, extract_text_from_pdf, hp, generate_gemini_response, hc,
    store_embeddings_in_chroma, generate_embeddings, he, hs, chromaAdd, hfresh,
    HandlerResult.httpStatus]

/-- Witness for C4 at a concrete input. -/
theorem summarizer_failure_degrades_witness :
    (process_file envSummFail []).1 = .success FILE_NAME none ∧
    (process_file envSummFail []).1.httpStatus = 200 ∧
    (process_file envSummFail []).2
      = [] ++ [⟨FILE_NAME, [1], ⟨FILE_NAME, (String.intercalate "\n" ["T"]).take 500⟩⟩] :=
  summarizer_failure_degrades envSummFail [] [37, 80, 68, 70] ["T"]
    "gemini quota exceeded" [1] rfl rfl rfl rfl rfl rfl

/-- C6: on a successful run the stored metadata content is the take of the
first 500 code points of the extracted text — its character data is exactly
the 500-element take of the extracted data — and when the extracted text is
at most 500 code points long the content equals the whole extracted text. -/
theorem metadata_content_truncation
    (env : Env) (col : Collection) (bs : List Nat) (pages : List String) (v : List Rat)
    (hdl : env.download = .ok bs)
    (hp : env.parsePdf bs = .ok pages)
    (he : env.embedSvc EMBEDDING_MODEL_NAME (String.intercalate "\n" pages)
            "RETRIEVAL_DOCUMENT" = .ok v)
    (hs : env.storeCall = .ok ())
    (hfresh : col.any (fun x => x.id == FILE_NAME) = false) :
    ((process_file env col).2
      = col ++ [⟨FILE_NAME, v, ⟨FILE_NAME, (String.intercalate "\n" pages).take 500⟩⟩]) ∧
    ((String.intercalate "\n" pages).take 500).data
      = (String.intercalate "\n" pages).data.take 500 ∧
    ((String.intercalate "\n" pages).length ≤ 500 →
      (String.intercalate "\n" pages).take 500 = String.intercalate "\n" pages) := by
  refine ⟨?_, by simp [String.take_eq], fun hlen => ?_⟩
  · simp [process_file, hdl, extract_text_from_pdf, hp, store_embeddings_in_chroma,
      generate_embeddings, he, hs, chromaAdd, hfresh]
  · have hlen2 : (String.intercalate "\n" pages).data.length ≤ 500 := hlen
    rw [String.take_eq, List.take_of_length_le hlen2]

/-- Witness for C6 at a concrete input. -/
theorem metadata_content_truncation_witness :
    ((process_file envServeOk []).2
      = [] ++ [⟨FILE_NAME, [1], ⟨FILE_NAME, (String.intercalate "\n" ["T"]).take 500⟩⟩]) ∧
    ((String.intercalate "\n" ["T"]).take 500).data
      = (String.intercalate "\n" ["T"]).data.take 500 ∧
    ((String.intercalate "\n" ["T"]).length ≤ 500 →
      (String.intercalate "\n" ["T"]).take 500 = String.intercalate "\n" ["T"]) :=
  metadata_content_truncation envServeOk [] [37, 80, 68, 70] ["T"] [1]
    rfl rfl rfl rfl rfl

/-- C8 counterexample: a failed heartbeat probe at start-up is only logged:
the process still serves requests, and the writer is still used — a request
served after the failed probe writes a record to the collection. This
refutes the claim that a failed probe is fatal and the writer unused. -/
theorem heartbeat_failure_not_fatal_cx :
    (module_init senvHeartbeatDown).heartbeat_ok = false ∧
    (module_init senvHeartbeatDown).serves = true ∧
    serve senvHeartbeatDown envServeOk []
      = some (.success FILE_NAME (some "S"),
              [⟨FILE_NAME, [1], ⟨FILE_NAME, "T".take 500⟩⟩]) ∧
    "T".take 500 = "T" := by
  refine ⟨rfl, rfl, rfl, ?_⟩
  have hlen : ("T" : String).data.length ≤ 500 := by decide
  rw [String.take_eq, List.take_of_length_le hlen]

/-- C8 (amended): the heartbeat probe is performed at start-up before the
collection is acquired, but a failed probe is not fatal: initialization
always completes, the process goes on to serve requests, and requests are
handled by process_file exactly as if the probe had succeeded. -/
theorem heartbeat_probe_nonfatal (senv : StartupEnv) (env : Env) (col : Collection)
    (hhb : (module_init senv).heartbeat_ok = false) :
    (module_init senv).trace
      = [.fetchToken, .heartbeatProbe, .initClient, .getOrCreateCollection] ∧
    (module_init senv).serves = true ∧
    serve senv env col = some (process_file env col) := ⟨rfl, rfl, rfl⟩

/-- Witness for the amended C8 at a concrete input. -/
theorem heartbeat_probe_nonfatal_witness :
    (module_init senvHeartbeatDown).trace
      = [.fetchToken, .heartbeatProbe, .initClient, .getOrCreateCollection] ∧
    (module_init senvHeartbeatDown).serves = true ∧
    serve senvHeartbeatDown envServeOk [] = some (process_file envServeOk []) :=
  heartbeat_probe_nonfatal senvHeartbeatDown envServeOk [] rfl

/-- C10: the collection state after a run does not depend on the summarizer
outcome: two runs with identical fetch, extract, embed and store behaviour
but arbitrary different completion-service behaviour write exactly the same
records — the summary is never persisted and never gates the stored
record. -/
theorem stored_record_independent_of_summarizer
    (env1 env2 : Env) (col : Collection)
    (hdl : env1.download = env2.download)
    (hp : env1.parsePdf = env2.parsePdf)
    (he : env1.embedSvc = env2.embedSvc)
    (hs : env1.storeCall = env2.storeCall) :
    (process_file env1 col).2 = (process_file env2 col).2 := by
  cases hdl2 : env2.download with
  | exn e => simp [process_file, hdl.trans hdl2, hdl2]
  | ok bs =>
    have hdl1 : env1.download = .ok bs := hdl.trans hdl2
    cases hext : extract_text_from_pdf (env2.parsePdf bs) with
    | exn e => simp [process_file, hdl1, hdl2, hp, hext]
    | ok t =>
      simp [process_file, hdl1, hdl2, hp, hext, store_embeddings_in_chroma,
        generate_embeddings, he, hs]

/-- Witness for C10 at a concrete input: two environments that agree on
everything except the completion service yield the same collection. -/
theorem stored_record_independent_of_summarizer_witness :
    (process_file envSummA []).2 = (process_file envSummB []).2 :=
  stored_record_independent_of_summarizer envSummA envSummB [] rfl rfl rfl rfl

end ProcessReports
